import Mathlib

/-!
Shallow embedding of the `turkic` package (files `turkic/api.py` and
`turkic/cli.py`) and proofs about its specification.

`turkic/api.py` defines a `Server` façade over the Mechanical Turk boto3
client: every method builds a keyword-argument dictionary and issues at most
one remote call.  We embed each method as a pure function returning the list
of remote calls it issues (op name plus keyword arguments, in order) and,
where the method can raise, an `Except` value.  Python floats standing for
currency amounts are embedded as exact rationals `ℚ`.

`turkic/cli.py` defines a registry of command handlers (a dict from name to
(function, help) populated by the `handler` decorator) and a dispatcher
`main`.  We embed the dict as an insertion-ordered association list with
replace-in-place update (Python dict semantics), functions as opaque records
carrying their `__name__` and a `setup`-capability flag, and `main` as a
function from the registry and the argument list to the printed lines plus
the optional handler invocation.
-/

set_option maxRecDepth 8192

namespace Turkic

/-- A Python exception, as far as this embedding distinguishes them. -/
inductive PyErr
  | exception (msg : String)
  | notImplemented (msg : String)
  | typeError (msg : String)
deriving DecidableEq, Repr

/-- The boto3 mturk client operations reachable from `turkic/api.py`, plus
`sendBonus`, the client's actual bonus-granting operation (never called by
the source). -/
inductive RemoteOp
  | createHit
  | updateExpirationForHit
  | approveAssignment
  | rejectAssignment
  | sendBonus
  | createWorkerBlock
  | deleteWorkerBlock
  | notifyWorkers
  | getAccountBalance
deriving DecidableEq, Repr

/-- One qualification requirement dictionary, as built in `Server.createhit`:
`QualificationTypeId`, `Comparator`, `IntegerValue`. -/
structure Qualification where
  qualificationTypeId : String
  comparator : String
  integerValue : ℤ
deriving DecidableEq, Repr

/-- A Python value appearing as a keyword argument of a remote call. -/
inductive Value
  | str (s : String)
  | int (n : ℤ)
  | strList (l : List String)
  | qualList (l : List Qualification)
  | timeNow
deriving DecidableEq, Repr

/-- `true` exactly on qualification-requirement lists. -/
def isQualListVal : Value → Bool
  | .qualList _ => true
  | _ => false

/-- One remote call: the client operation and its keyword arguments in
source order. -/
structure RemoteCall where
  op : RemoteOp
  kwargs : List (String × Value)
deriving DecidableEq, Repr

/-! ## String helpers embedding the Python primitives used by the source -/

/-- Python `str.lower()` (ASCII, which covers every name in the source). -/
def pyLower (s : String) : String :=
  String.mk (s.toList.map Char.toLower)

/-- A run of `n` spaces. -/
def spaces (n : Nat) : String :=
  String.mk (List.replicate n ' ')

/-- Python format spec `>w`: right-align in a field of minimum width `w`. -/
def pyAlignRight (w : Nat) (s : String) : String :=
  spaces (w - s.length) ++ s

/-- Python format spec `<w`: left-align in a field of minimum width `w`. -/
def pyAlignLeft (w : Nat) (s : String) : String :=
  s ++ spaces (w - s.length)

/-- Replace every occurrence of the three-character template hole
(brace, `c`, brace) by `repl`. -/
def substC : List Char → List Char → List Char
  | [], _ => []
  | '\x7b' :: 'c' :: '\x7d' :: rest, repl => repl ++ substC rest repl
  | ch :: rest, repl => ch :: substC rest repl

/-- Python `template.format(c = plural)` for the templates used by
`LoadCommand`, whose only replacement field is the `c` hole. -/
def pyFormatC (template plural : String) : String :=
  String.mk (substC template.toList plural.toList)

/-- Round a rational to the nearest integer, ties to even — the rounding of
C `printf`-style `%f` formatting used by Python's `'%0.2f' % amount`. -/
def roundHalfEven (q : ℚ) : ℤ :=
  let fl := ⌊q⌋
  if q - fl < 1 / 2 then fl
  else if (1 : ℚ) / 2 < q - fl then fl + 1
  else if fl % 2 = 0 then fl else fl + 1

/-- Python `'%0.2f' % amount`: the amount rounded to cents and rendered with
a sign, the integer part, a point, and exactly two fractional digits.  The
binary float is embedded as an exact rational. -/
def formatAmount (amount : ℚ) : String :=
  let cents := (roundHalfEven (amount * 100)).natAbs
  (if amount < 0 then "-" else "")
    ++ toString (cents / 100) ++ "."
    ++ (toString (cents / 10 % 10) ++ toString (cents % 10))

/-! ## `turkic/api.py`: the `Server` façade

Each method is embedded as the list of remote calls it issues; methods that
`raise` return an `Except.error` and an empty call list. -/

/-- The `ExternalQuestion` document built in `Server.createhit` by
`format`-ting `self.localhost`, `page` and `height` into the fixed
template. -/
def question (localhost page : String) (height : ℤ) : String :=
  "<ExternalQuestion xmlns=\"http://mechanicalturk"
    ++ ".amazonaws.com/AWSMechanicalTurkDataSchemas/"
    ++ "2006-07-14/ExternalQuestion.xsd\">"
    ++ "<ExternalURL>" ++ localhost ++ "/" ++ page ++ "</ExternalURL>"
    ++ "<FrameHeight>" ++ toString height ++ "</FrameHeight>"
    ++ "</ExternalQuestion>"

/-- The approval-percentage qualification appended when
`minapprovedpercent` is truthy. -/
def qualPercent (v : ℤ) : Qualification :=
  ⟨"000000000000000000L0", "GreaterThanOrEqualTo", v⟩

/-- The approved-count qualification appended when `minapprovedamount` is
truthy. -/
def qualCount (v : ℤ) : Qualification :=
  ⟨"00000000000000000040", "GreaterThanOrEqualTo", v⟩

/-- The country qualification appended when `countrycode` is truthy. -/
def qualCountry (v : ℤ) : Qualification :=
  ⟨"00000000000000000071", "EqualTo", v⟩

/-- The `qualifications` list variable of `Server.createhit`: Python
truthiness (`if minapprovedpercent:` …) treats `None` and `0` alike as
absent; present thresholds append in source order percent, count,
country. -/
def qualifications (minapprovedpercent minapprovedamount countrycode : Option ℤ) :
    List Qualification :=
  (match minapprovedpercent with
   | some v => if v ≠ 0 then [qualPercent v] else []
   | none => [])
  ++ (match minapprovedamount with
      | some v => if v ≠ 0 then [qualCount v] else []
      | none => [])
  ++ (match countrycode with
      | some v => if v ≠ 0 then [qualCountry v] else []
      | none => [])

/-- The dictionary `r` of `Server.createhit` as finally passed to
`self.client.create_hit(**r)`: the seven literal entries in source order,
then `r["Question"]` appended.  The `qualifications` list built by the
method is never assigned into `r`. -/
def createhitRequest (localhost title description page : String) (amount : ℚ)
    (duration lifetime : ℤ) (keywords : String) (autoapprove height : ℤ) :
    List (String × Value) :=
  [("Title", .str title),
   ("Description", .str description),
   ("Keywords", .str keywords),
   ("Reward", .str (formatAmount amount)),
   ("AssignmentDurationInSeconds", .int duration),
   ("AutoApprovalDelayInSeconds", .int autoapprove),
   ("LifetimeInSeconds", .int lifetime),
   ("Question", .str (question localhost page height))]

/-- `Server.createhit`: builds `r` and the local `qualifications` list, then
issues the single `create_hit(**r)` call.  As in the source, the
qualification list is built but never attached to `r`. -/
def createhit (localhost title description page : String) (amount : ℚ)
    (duration lifetime : ℤ) (keywords : String) (autoapprove height : ℤ)
    (minapprovedpercent minapprovedamount countrycode : Option ℤ) : RemoteCall :=
  let _quals := qualifications minapprovedpercent minapprovedamount countrycode
  ⟨.createHit,
   createhitRequest localhost title description page amount duration lifetime
     keywords autoapprove height⟩

/-- `Server.disable`: one `update_expiration_for_hit` call. -/
def disable (hitid : String) : RemoteCall :=
  ⟨.updateExpirationForHit, [("HITId", .str hitid), ("ExpireAt", .timeNow)]⟩

/-- `Server.purge`: raises immediately; no remote call is issued. -/
def purge : Except PyErr Unit × List RemoteCall :=
  (.error (.exception "You probably don't want to do this"), [])

/-- `Server.accept`: one `approve_assignment` call. -/
def accept (assignmentid feedback : String) : RemoteCall :=
  ⟨.approveAssignment,
   [("AssignmentId", .str assignmentid), ("RequesterFeedback", .str feedback)]⟩

/-- `Server.reject`: one `reject_assignment` call. -/
def reject (assignmentid feedback : String) : RemoteCall :=
  ⟨.rejectAssignment,
   [("AssignmentId", .str assignmentid), ("RequesterFeedback", .str feedback)]⟩

/-- `Server.bonus`: as written in the source it calls
`self.client.reject_assignment(WorkerId=…, AssignmentId=…, BonusAmount=…,
Reason=…)` — the reject operation with bonus-style keyword arguments. -/
def bonus (workerid assignmentid : String) (amount : ℚ) (feedback : String) :
    List RemoteCall :=
  [⟨.rejectAssignment,
    [("WorkerId", .str workerid),
     ("AssignmentId", .str assignmentid),
     ("BonusAmount", .str (formatAmount amount)),
     ("Reason", .str feedback)]⟩]

/-- `Server.block`: one `create_worker_block` call. -/
def block (workerid reason : String) : RemoteCall :=
  ⟨.createWorkerBlock, [("WorkerId", .str workerid), ("Reason", .str reason)]⟩

/-- `Server.unblock`: one `delete_worker_block` call. -/
def unblock (workerid reason : String) : RemoteCall :=
  ⟨.deleteWorkerBlock, [("WorkerId", .str workerid), ("Reason", .str reason)]⟩

/-- `Server.email`: one `notify_workers` call with a single recipient. -/
def email (workerid subject message : String) : RemoteCall :=
  ⟨.notifyWorkers,
   [("WorkerIds", .strList [workerid]),
    ("Subject", .str subject),
    ("MessageText", .str message)]⟩

/-- The Python type argument of `Server.getstatistic`. -/
inductive PyType
  | float
  | int
deriving DecidableEq, Repr

/-- `Server.getstatistic`: raises immediately, before touching the client. -/
def getstatistic (statistic : String) (ty : PyType)
    (timeperiod : String) : Except PyErr ℚ × List RemoteCall :=
  let _ := (statistic, ty, timeperiod)
  (.error (.exception "Not supported by new mturk api"), [])

/-- `Server.rewardpayout`: `getstatistic` for rewards, then for bonuses,
then the sum; any raise propagates. -/
def rewardpayout : Except PyErr ℚ × List RemoteCall :=
  match getstatistic "TotalRewardPayout" .float "LifeToDate" with
  | (.error e, cs) => (.error e, cs)
  | (.ok reward, cs) =>
    match getstatistic "TotalBonusPayout" .float "LifeToDate" with
    | (.error e, cs2) => (.error e, cs ++ cs2)
    | (.ok bonusv, cs2) => (.ok (reward + bonusv), cs ++ cs2)

/-- `Server.approvalpercentage`: a single `getstatistic` read. -/
def approvalpercentage : Except PyErr ℚ × List RemoteCall :=
  getstatistic "PercentAssignmentsApproved" .float "LifeToDate"

/-- `Server.feepayout`: `getstatistic` for reward fees, then bonus fees. -/
def feepayout : Except PyErr ℚ × List RemoteCall :=
  match getstatistic "TotalRewardFeePayout" .float "LifeToDate" with
  | (.error e, cs) => (.error e, cs)
  | (.ok reward, cs) =>
    match getstatistic "TotalBonusFeePayout" .float "LifeToDate" with
    | (.error e, cs2) => (.error e, cs ++ cs2)
    | (.ok bonusv, cs2) => (.ok (reward + bonusv), cs ++ cs2)

/-- `Server.numcreated`: a single `getstatistic` read. -/
def numcreated : Except PyErr ℚ × List RemoteCall :=
  getstatistic "NumberHITsCreated" .int "LifeToDate"

/-! ## `turkic/cli.py`: registry and dispatcher -/

/-- A Python function object as the registry sees it: its `__name__`, an
identity label distinguishing distinct functions, and whether it has a
`setup` attribute (the duck-typed capability `main` detects). -/
structure PyFunc where
  name : String
  label : Nat
  hasSetup : Bool
deriving DecidableEq, Repr

/-- A registry entry: the handler function and its help text. -/
abbrev Entry := PyFunc × String

/-- The `handlers` dict: an insertion-ordered association list with Python
dict update semantics (`dictInsert`). -/
abbrev Handlers := List (String × Entry)

/-- Python `d[k] = v`: replace the value in place when the key is present,
otherwise append. -/
def dictInsert : Handlers → String → Entry → Handlers
  | [], k, v => [(k, v)]
  | kv :: rest, k, v =>
    if kv.1 = k then (k, v) :: rest else kv :: dictInsert rest k v

/-- Python `d[k]`, as an `Option`. -/
def dictLookup (d : Handlers) (k : String) : Option Entry :=
  (d.find? fun kv => decide (kv.1 = k)).map (·.2)

/-- The `handler` decorator: chooses `inname` when given, else the
function's `__name__`; stores `(func, help)` under the lower-cased name;
returns the function itself.  Embedded as a function from the current
registry to the updated registry paired with the decorator's return
value. -/
def handler (hlp : String) (inname : Option String) (d : Handlers)
    (func : PyFunc) : Handlers × PyFunc :=
  let name := match inname with
    | none => func.name
    | some n => n
  (dictInsert d (pyLower name) (func, hlp), func)

/-- One line printed by `help`: the format string right-aligns the name in
width 15, three literal spaces, then the help text left-aligned in
width 50. -/
def helpLine (it : String × Entry) : String :=
  pyAlignRight 15 it.1 ++ "   " ++ pyAlignLeft 50 it.2.2

/-- Python `sorted(handlers.items())`: dict items sorted by comparing
tuples, which on a dict's distinct keys is sorting by name. -/
def sortedItems (d : Handlers) : List (String × Entry) :=
  d.mergeSort fun x y => decide (x.1 ≤ y.1)

/-- The lines printed by `help`. -/
def helpOutput (d : Handlers) : List String :=
  (sortedItems d).map helpLine

/-- How `main` ends up invoking a resolved handler: a simple handler gets
the remaining tokens; a `setup`-capable handler is instantiated, its parser
is labelled with the command name, and the instance is called on the parse
of the remaining tokens. -/
inductive Invocation
  | simple (f : PyFunc) (rest : List String)
  | schema (f : PyFunc) (prog : String) (rest : List String)
deriving DecidableEq, Repr

/-- `main`: with no tokens, print the help listing; with an unknown first
token, print the unknown-action diagnostic; otherwise invoke the resolved
handler in the shape matching its `setup` capability.  Returns the printed
lines and the invocation, if any. -/
def main (d : Handlers) (args : List String) :
    List String × Option Invocation :=
  match args with
  | [] => (helpOutput d, none)
  | a0 :: rest =>
    match dictLookup d a0 with
    | none => (["Error: Unknown action " ++ a0], none)
    | some (f, _) =>
      ([], some (if f.hasSetup then .schema f a0 rest else .simple f rest))

/-- The parsed-argument namespace consumed by `LoadCommand.__call__`:
the `importparser` flags plus the `plural` value the templates consume. -/
structure ParsedArgs where
  title : String
  description : String
  cost : ℚ
  duration : ℤ
  lifetime : ℤ
  keywords : String
  bonus : ℚ
  plural : String
deriving DecidableEq, Repr

/-- The `HITGroup` record constructed by `LoadCommand.__call__`. -/
structure HITGroup where
  title : String
  description : String
  duration : ℤ
  lifetime : ℤ
  cost : ℚ
  bonus : ℚ
  keywords : String
deriving DecidableEq, Repr

/-- A value passable to the `load` method. -/
inductive LoadValue
  | inst (label : Nat)
  | args (a : ParsedArgs)
  | group (g : HITGroup)
deriving DecidableEq, Repr

/-- A Python method: its declared positional-parameter count (including
`self`) and its body on the received argument list. -/
structure PyMethod where
  arity : Nat
  body : List LoadValue → Except PyErr Unit

/-- Calling a bound method `self.m(explicitArgs…)`: Python prepends the
bound `self`, then checks the count of received arguments against the
declared parameters before the body runs; a mismatch raises `TypeError`. -/
def callBound (m : PyMethod) (self : LoadValue) (explicitArgs : List LoadValue) :
    Except PyErr Unit :=
  if 1 + explicitArgs.length = m.arity then m.body (self :: explicitArgs)
  else .error (.typeError "load() takes 3 positional arguments but 4 were given")

/-- The base `LoadCommand.load`: three declared parameters
(`self, args, group`); its body raises `NotImplementedError`. -/
def baseLoad : PyMethod :=
  ⟨3, fun _ => .error (.notImplemented "load() must be defined")⟩

/-- The `HITGroup(...)` construction in `LoadCommand.__call__`: the title
and description templates with `args.plural` substituted for the `c` hole,
and the remaining fields copied. -/
def mkGroup (a : ParsedArgs) : HITGroup :=
  ⟨pyFormatC a.title a.plural, pyFormatC a.description a.plural,
   a.duration, a.lifetime, a.cost, a.bonus, a.keywords⟩

/-- `LoadCommand.__call__(self, args)`: builds the group, then evaluates
`self.load(self, args, group)` — a bound call carrying three explicit
arguments on top of the bound `self`. -/
def loadCommandCall (selfLabel : Nat) (loadMethod : PyMethod)
    (a : ParsedArgs) : Except PyErr Unit :=
  let group := mkGroup a
  callBound loadMethod (.inst selfLabel) [.inst selfLabel, .args a, .group group]

/-! ## Spec-side definitions and demo data -/

/-- The worker-facing URL as the spec words it: `{baseURL}/{pageSlug}`. -/
def specExternalURL (baseURL pageSlug : String) : String :=
  baseURL ++ "/" ++ pageSlug

/-- The question document as clause 6 of the spec words it: the fixed
external-question template around `ExternalURL` and `FrameHeight`. -/
def specQuestionDocument (baseURL pageSlug : String) (frameHeight : ℤ) : String :=
  "<ExternalQuestion xmlns=\"http://mechanicalturk"
    ++ ".amazonaws.com/AWSMechanicalTurkDataSchemas/"
    ++ "2006-07-14/ExternalQuestion.xsd\">"
    ++ "<ExternalURL>" ++ specExternalURL baseURL pageSlug ++ "</ExternalURL>"
    ++ "<FrameHeight>" ++ toString frameHeight ++ "</FrameHeight>"
    ++ "</ExternalQuestion>"

/-- A simple handler function standing for `cliutil.publish`. -/
def publishFn : PyFunc := ⟨"publish", 2, false⟩

/-- A simple handler function standing for `cliutil.compensate`. -/
def compensateFn : PyFunc := ⟨"compensate", 3, false⟩

/-- A handler function used to exercise case-sensitivity of dispatch. -/
def loadFn : PyFunc := ⟨"loadfn", 0, false⟩

/-- A small registry populated the way the source's import-time block does:
`handler(help)(func)` with the name inferred from `__name__`. -/
def demoHandlers : Handlers :=
  (handler "Pay workers" none (handler "Launch work" none [] publishFn).1
    compensateFn).1

/-! ## Helper lemmas -/

/-- A decimal digit renders as a single digit character. -/
theorem digit_repr (d : ℕ) (h : d < 10) :
    (toString d).length = 1 ∧ (toString d).data.all Char.isDigit = true := by
  interval_cases d <;> exact ⟨rfl, rfl⟩

/-- Looking up the key just written, Python-dict style, yields the value
just written. -/
theorem dictLookup_dictInsert (d : Handlers) (k : String) (v : Entry) :
    dictLookup (dictInsert d k v) k = some v := by
  induction d with
  | nil => simp [dictInsert, dictLookup, List.find?]
  | cons kv rest ih =>
    by_cases h : kv.1 = k
    · simp [dictInsert, h, dictLookup, List.find?]
    · unfold dictInsert dictLookup
      rw [if_neg h, List.find?_cons,
        show (decide (kv.1 = k)) = false from decide_eq_false h]
      exact ih

/-- `sortedItems` is sorted by command name. -/
theorem sortedItems_pairwise (d : Handlers) :
    (sortedItems d).Pairwise fun x y => x.1 ≤ y.1 := by
  have hs := @List.sorted_mergeSort (String × Entry) (fun x y => decide (x.1 ≤ y.1))
    (by intro a b c hab hbc
        exact decide_eq_true (le_trans (of_decide_eq_true hab) (of_decide_eq_true hbc)))
    (by intro a b
        rcases le_total a.1 b.1 with h | h
        · simp [h]
        · simp [h])
    d
  exact hs.imp fun hb => of_decide_eq_true hb

/-! ## Claim theorems -/

/-- C1: `Server.bonus` does not invoke the remote bonus-granting operation:
its single remote call targets `reject_assignment` (with bonus-style
keyword arguments), never `send_bonus`. -/
theorem bonus_calls_reject_not_sendBonus :
    (∀ (workerid assignmentid : String) (amount : ℚ) (feedback : String),
        (bonus workerid assignmentid amount feedback).map RemoteCall.op
          = [RemoteOp.rejectAssignment])
    ∧ RemoteOp.rejectAssignment ≠ RemoteOp.sendBonus
    ∧ (∀ (workerid assignmentid : String) (amount : ℚ) (feedback : String),
        (bonus workerid assignmentid amount feedback).map
            (fun c => c.kwargs.map Prod.fst)
          = [["WorkerId", "AssignmentId", "BonusAmount", "Reason"]]) := by
  refine ⟨fun _ _ _ _ => rfl, ?_, fun _ _ _ _ => rfl⟩
  intro h
  exact RemoteOp.noConfusion h

/-- C2: the request `Server.createhit` passes to `create_hit` never carries
any qualification filter — the locally built `qualifications` list is
dropped — although at the failing input `minapprovedpercent = 95` that list
is the singleton approval-percent filter; a zero threshold builds no
filter. -/
theorem createhit_request_drops_qualifications :
    (∀ (localhost title description page : String) (amount : ℚ)
        (duration lifetime : ℤ) (keywords : String) (autoapprove height : ℤ)
        (minapprovedpercent minapprovedamount countrycode : Option ℤ),
        ((createhit localhost title description page amount duration lifetime
              keywords autoapprove height minapprovedpercent minapprovedamount
              countrycode).kwargs.all fun kv => !isQualListVal kv.2) = true
        ∧ (createhit localhost title description page amount duration lifetime
              keywords autoapprove height minapprovedpercent minapprovedamount
              countrycode).kwargs.map Prod.fst
            = ["Title", "Description", "Keywords", "Reward",
               "AssignmentDurationInSeconds", "AutoApprovalDelayInSeconds",
               "LifetimeInSeconds", "Question"])
    ∧ qualifications (some 95) none none = [qualPercent 95]
    ∧ qualifications none (some 0) none = [] := by
  refine ⟨fun _ _ _ _ _ _ _ _ _ _ _ _ _ => ⟨rfl, rfl⟩, ?_, rfl⟩
  simp [qualifications]

/-- C4: `LoadCommand.__call__` evaluates `self.load(self, args, group)` —
four received arguments against the three declared parameters of `load` —
so with the base (un-overridden) `load` it fails with `TypeError`, never
reaching the `NotImplementedError` body; any override declaring the same
three parameters fails identically.  The group itself does substitute the
plural noun into the templates. -/
theorem loadCommand_call_arity_mismatch :
    (∀ (lbl : Nat) (a : ParsedArgs),
        loadCommandCall lbl baseLoad a =
          Except.error
            (PyErr.typeError "load() takes 3 positional arguments but 4 were given"))
    ∧ (∀ (lbl : Nat) (a : ParsedArgs) (msg : String),
        loadCommandCall lbl baseLoad a ≠ Except.error (PyErr.notImplemented msg))
    ∧ (∀ (lbl : Nat) (a : ParsedArgs) (body : List LoadValue → Except PyErr Unit),
        loadCommandCall lbl ⟨3, body⟩ a =
          Except.error
            (PyErr.typeError "load() takes 3 positional arguments but 4 were given"))
    ∧ (∀ a : ParsedArgs,
        mkGroup a = ⟨pyFormatC a.title a.plural, pyFormatC a.description a.plural,
          a.duration, a.lifetime, a.cost, a.bonus, a.keywords⟩)
    ∧ (mkGroup ⟨"Image annotation of \x7bc\x7d",
          "Draw boxes around \x7bc\x7d in this image.", 2 / 100, 600, 1209600,
          "", 0, "cats"⟩).title = "Image annotation of cats" := by
  refine ⟨fun _ _ => rfl, ?_, fun _ _ _ => rfl, fun _ => rfl, by decide⟩
  intro lbl a msg h
  simp [loadCommandCall, callBound, baseLoad] at h

/-- C5: `Server.purge` always fails with the deliberate refusal and issues
no remote call at all; it is never a silent no-op. -/
theorem purge_always_refuses :
    purge = (Except.error (PyErr.exception "You probably don't want to do this"),
             ([] : List RemoteCall))
    ∧ (∀ u : Unit, purge.1 ≠ Except.ok u)
    ∧ purge.2 = [] := by
  refine ⟨rfl, ?_, rfl⟩
  intro u h
  simp [purge] at h

/-- C6: `Server.getstatistic` and each statistics-family property
(`rewardpayout`, `approvalpercentage`, `feepayout`, `numcreated`) always
fail with the unsupported-operation error and issue no remote call. -/
theorem statistics_always_unsupported :
    (∀ (s : String) (ty : PyType) (tp : String),
        getstatistic s ty tp =
          (Except.error (PyErr.exception "Not supported by new mturk api"), []))
    ∧ rewardpayout =
        (Except.error (PyErr.exception "Not supported by new mturk api"), [])
    ∧ approvalpercentage =
        (Except.error (PyErr.exception "Not supported by new mturk api"), [])
    ∧ feepayout =
        (Except.error (PyErr.exception "Not supported by new mturk api"), [])
    ∧ numcreated =
        (Except.error (PyErr.exception "Not supported by new mturk api"), []) :=
  ⟨fun _ _ _ => rfl, rfl, rfl, rfl, rfl⟩

/-- C7: the question document embedded under the `Question` key of the
task-creation request is exactly the fixed-schema external-question
template around `{baseURL}/{pageSlug}` and the frame height, and at
`baseURL = "https://host"`, `pageSlug = "task/1"`, `frameHeight = 650` it
equals the expected document byte-for-byte. -/
theorem question_document_template :
    (∀ (localhost title description page : String) (amount : ℚ)
        (duration lifetime : ℤ) (keywords : String) (autoapprove height : ℤ)
        (minapprovedpercent minapprovedamount countrycode : Option ℤ),
        ("Question", Value.str (question localhost page height)) ∈
          (createhit localhost title description page amount duration lifetime
            keywords autoapprove height minapprovedpercent minapprovedamount
            countrycode).kwargs)
    ∧ (∀ (baseURL pageSlug : String) (frameHeight : ℤ),
        question baseURL pageSlug frameHeight =
          specQuestionDocument baseURL pageSlug frameHeight)
    ∧ question "https://host" "task/1" 650 =
        "<ExternalQuestion xmlns=\"http://mechanicalturk.amazonaws.com/AWSMechanicalTurkDataSchemas/2006-07-14/ExternalQuestion.xsd\"><ExternalURL>https://host/task/1</ExternalURL><FrameHeight>650</FrameHeight></ExternalQuestion>" := by
  refine ⟨?_, fun _ _ _ => rfl, by decide⟩
  intro localhost title description page amount duration lifetime keywords
    autoapprove height minapprovedpercent minapprovedamount countrycode
  simp [createhit, createhitRequest]

/-- C10: the `handler` decorator returns the decorated function unchanged,
and the registry entry under the lower-cased chosen name is exactly the
pair of that function and the help text. -/
theorem handler_registration_identity :
    ∀ (d : Handlers) (hlp : String) (inname : Option String) (func : PyFunc),
      (handler hlp inname d func).2 = func
      ∧ dictLookup (handler hlp inname d func).1
          (pyLower (inname.getD func.name)) = some (func, hlp) := by
  intro d hlp inname func
  refine ⟨rfl, ?_⟩
  cases inname with
  | none => exact dictLookup_dictInsert d (pyLower func.name) (func, hlp)
  | some n => exact dictLookup_dictInsert d (pyLower n) (func, hlp)

/-- C10, witness: registering `publishFn` on an empty registry returns the
function unchanged and stores exactly `(publishFn, help)` under its
lower-cased `__name__`. -/
theorem handler_registration_identity_witness :
    (handler "Launch work" none [] publishFn).2 = publishFn
    ∧ dictLookup (handler "Launch work" none [] publishFn).1
        (pyLower ((none : Option String).getD publishFn.name))
        = some (publishFn, "Launch work") :=
  handler_registration_identity [] "Launch work" none publishFn

/-- C3, counterexample: registering a handler under the name `"Load"`
stores it under `"load"` (a known command), yet dispatching the token
`"Load"` is reported as an unknown action with no handler invoked — lookup
is not case-insensitive at dispatch. -/
theorem dispatch_uppercase_token_unknown_cex :
    (handler "Launch work" (some "Load") [] loadFn).1
      = [("load", (loadFn, "Launch work"))]
    ∧ dictLookup (handler "Launch work" (some "Load") [] loadFn).1 "load"
      = some (loadFn, "Launch work")
    ∧ main (handler "Launch work" (some "Load") [] loadFn).1 ["Load"]
      = (["Error: Unknown action Load"], none) := by
  refine ⟨by decide, by decide, by decide⟩

/-- C3, amended: names are lower-cased at registration only, so two
registrations under names differing only in case collapse to a single
entry (last one wins); dispatch compares the raw token, so the lower-cased
name resolves and invokes the handler while any other casing is reported
unknown. -/
theorem registration_lowercases_dispatch_is_case_sensitive :
    ∀ (f g : PyFunc) (hlp1 hlp2 : String),
      ((handler hlp2 (some "load") (handler hlp1 (some "Load") [] f).1 g).1).length = 1
      ∧ dictLookup
          (handler hlp2 (some "load") (handler hlp1 (some "Load") [] f).1 g).1
          "load" = some (g, hlp2)
      ∧ (main (handler hlp2 (some "load") (handler hlp1 (some "Load") [] f).1 g).1
          ["load"]).2
          = some (if g.hasSetup then Invocation.schema g "load" []
                  else Invocation.simple g [])
      ∧ (main (handler hlp2 (some "load") (handler hlp1 (some "Load") [] f).1 g).1
          ["LOAD"]).2 = none := by
  intro f g hlp1 hlp2
  have hL : pyLower "Load" = "load" := by decide
  have hl : pyLower "load" = "load" := by decide
  have e2 : (handler hlp2 (some "load") (handler hlp1 (some "Load") [] f).1 g).1
      = [("load", (g, hlp2))] := by
    simp [handler, hL, hl, dictInsert]
  rw [e2]
  exact ⟨rfl, rfl, rfl, rfl⟩

/-- C3, witness for the amended claim: concrete registrations under
`"Load"` then `"load"` collapse to one entry, the token `"load"` resolves
and invokes the handler, and the token `"LOAD"` does not. -/
theorem registration_lowercases_dispatch_witness :
    ((handler "Pay workers" (some "load")
        (handler "Launch work" (some "Load") [] loadFn).1 compensateFn).1).length = 1
    ∧ dictLookup
        (handler "Pay workers" (some "load")
          (handler "Launch work" (some "Load") [] loadFn).1 compensateFn).1
        "load" = some (compensateFn, "Pay workers")
    ∧ (main (handler "Pay workers" (some "load")
          (handler "Launch work" (some "Load") [] loadFn).1 compensateFn).1
        ["load"]).2
        = some (if compensateFn.hasSetup then Invocation.schema compensateFn "load" []
                else Invocation.simple compensateFn [])
    ∧ (main (handler "Pay workers" (some "load")
          (handler "Launch work" (some "Load") [] loadFn).1 compensateFn).1
        ["LOAD"]).2 = none :=
  registration_lowercases_dispatch_is_case_sensitive loadFn compensateFn
    "Launch work" "Pay workers"

/-- C9: dispatching with no tokens prints one help line per registered
command, listed sorted by name, and invokes nothing; dispatching a token
that is not a registered name prints the unknown-action diagnostic and
invokes nothing. -/
theorem dispatch_help_and_unknown (d : Handlers) (tok : String)
    (h : dictLookup d tok = none) :
    (main d []).2 = none
    ∧ (main d []).1 = (sortedItems d).map helpLine
    ∧ (sortedItems d).Perm d
    ∧ (sortedItems d).Pairwise (fun x y => x.1 ≤ y.1)
    ∧ main d [tok] = (["Error: Unknown action " ++ tok], none) := by
  refine ⟨rfl, rfl, List.mergeSort_perm d _, sortedItems_pairwise d, ?_⟩
  simp [main, h]

/-- C9, witness: on a concrete two-command registry, the unregistered token
`"status"` is diagnosed with no invocation, and the help listing covers the
whole registry. -/
theorem dispatch_help_and_unknown_witness :
    main demoHandlers ["status"] = (["Error: Unknown action status"], none)
    ∧ (sortedItems demoHandlers).Perm demoHandlers :=
  have h := dispatch_help_and_unknown demoHandlers "status" (by decide)
  ⟨h.2.2.2.2, h.2.2.1⟩

/-- C8: every serialized amount has the shape sign, integer part, point,
and exactly two decimal digits; `0.1` serializes as `"0.10"` and `1` as
`"1.00"`; the `Reward` field of the creation request and the `BonusAmount`
field of the bonus call both carry exactly this serialization. -/
theorem amounts_two_decimal_digits :
    (∀ q : ℚ, ∃ sign intPart frac : String,
        formatAmount q = sign ++ intPart ++ "." ++ frac
        ∧ frac.length = 2
        ∧ frac.data.all Char.isDigit = true)
    ∧ formatAmount (1 / 10) = "0.10"
    ∧ formatAmount 1 = "1.00"
    ∧ (∀ (localhost title description page : String) (amount : ℚ)
        (duration lifetime : ℤ) (keywords : String) (autoapprove height : ℤ)
        (minapprovedpercent minapprovedamount countrycode : Option ℤ),
        ("Reward", Value.str (formatAmount amount)) ∈
          (createhit localhost title description page amount duration lifetime
            keywords autoapprove height minapprovedpercent minapprovedamount
            countrycode).kwargs)
    ∧ (∀ (workerid assignmentid : String) (amount : ℚ) (feedback : String),
        ∃ kws, bonus workerid assignmentid amount feedback
            = [⟨RemoteOp.rejectAssignment, kws⟩]
          ∧ ("BonusAmount", Value.str (formatAmount amount)) ∈ kws) := by
  refine ⟨?_, ?_, ?_, ?_, ?_⟩
  · intro q
    refine ⟨(if q < 0 then "-" else ""),
      toString ((roundHalfEven (q * 100)).natAbs / 100),
      toString ((roundHalfEven (q * 100)).natAbs / 10 % 10)
        ++ toString ((roundHalfEven (q * 100)).natAbs % 10), rfl, ?_, ?_⟩
    · have h1 := digit_repr ((roundHalfEven (q * 100)).natAbs / 10 % 10)
        (Nat.mod_lt _ (by norm_num))
      have h2 := digit_repr ((roundHalfEven (q * 100)).natAbs % 10)
        (Nat.mod_lt _ (by norm_num))
      rw [String.length_append, h1.1, h2.1]
    · have h1 := digit_repr ((roundHalfEven (q * 100)).natAbs / 10 % 10)
        (Nat.mod_lt _ (by norm_num))
      have h2 := digit_repr ((roundHalfEven (q * 100)).natAbs % 10)
        (Nat.mod_lt _ (by norm_num))
      have hd : (toString ((roundHalfEven (q * 100)).natAbs / 10 % 10)
          ++ toString ((roundHalfEven (q * 100)).natAbs % 10)).data
          = (toString ((roundHalfEven (q * 100)).natAbs / 10 % 10)).data
            ++ (toString ((roundHalfEven (q * 100)).natAbs % 10)).data :=
        String.data_append ..
      rw [hd, List.all_append, h1.2, h2.2]
      rfl
  · have hc : roundHalfEven ((1 : ℚ) / 10 * 100) = 10 := by
      have h100 : (1 : ℚ) / 10 * 100 = 10 := by norm_num
      rw [h100]
      simp only [roundHalfEven]
      rw [show ⌊(10 : ℚ)⌋ = 10 by norm_num]
      norm_num
    simp only [formatAmount, hc]
    rw [if_neg (by norm_num : ¬ ((1 : ℚ) / 10 < 0))]
    rfl
  · have hc : roundHalfEven ((1 : ℚ) * 100) = 100 := by
      have h100 : (1 : ℚ) * 100 = 100 := by norm_num
      rw [h100]
      simp only [roundHalfEven]
      rw [show ⌊(100 : ℚ)⌋ = 100 by norm_num]
      norm_num
    simp only [formatAmount, hc]
    rw [if_neg (by norm_num : ¬ ((1 : ℚ) < 0))]
    rfl
  · intro localhost title description page amount duration lifetime keywords
      autoapprove height minapprovedpercent minapprovedamount countrycode
    simp [createhit, createhitRequest]
  · intro workerid assignmentid amount feedback
    exact ⟨_, rfl, by simp⟩

end Turkic
